import Mathlib

/-!
Verification development for the OCR/LLM orchestration core of
`src/project2_ocr/main.py`.

The shallow embedding below translates, directly from the Python source:

* `OCRLLMWorker.run` (the pipeline worker) as a pure function `runWorker`
  from an engine environment, the task inputs and the observed values of the
  cooperative stop flag to the list of Qt signals ("events") it emits, in
  emission order;
* the `MainWindow` orchestration handlers (`_start_background_worker`,
  `run_ocr_correction_task`, `run_explanation_task`,
  `cancel_current_worker_if_running`, `load_image_and_prepare_analysis`,
  `handle_worker_finished`, `handle_worker_error`, `reset_ui_after_task`,
  `show_comparison_dialog`, ...) as pure state-transition functions on a
  `GuiState` record holding the `MainWindow` attributes relevant to the
  orchestration claims (purely visual attributes — status label text,
  pixmaps, window geometry — are omitted, they feed back into no decision);
* a small script semantics (`runScript`) that replays a sequence of GUI-thread
  activations (user clicks and queued worker-signal deliveries) against the
  handlers, instrumented with ghost counters for started attempts and
  observed Finished signals.

Blocking engine calls (EasyOCR `readtext`, GPT4All `generate`) are modelled
as functions of the environment returning `Except String _`: `Except.error`
stands for the Python call raising, whose message then reaches the
`error` signal (the Python handler wraps the message with the task type and
a traceback; the wrapper adds nothing the claims depend on, so the model
carries the underlying message). Model loading inside the worker
(`easyocr.Reader(...)`, `GPT4All(...)`) raising is folded into the same
engine-call failure, as both surface as the identical `ErrorEvent` +
`FinishedEvent` tail.
-/

/-- The two `task_type` strings accepted by `OCRLLMWorker.run`. -/
inductive TaskType where
  | ocr_correct
  | explain
  deriving DecidableEq

/-- The first argument of the `result` signal: which result is being
delivered (`"ocr_result"`, `"corrected_text_result"`, `"explanation_result"`
in the source). -/
inductive ResultKind where
  | ocr_result
  | corrected_text_result
  | explanation_result
  deriving DecidableEq

/-- One emission on the worker's event channel: the four `WorkerSignals`
(`progress`, `result`, `error`, `finished`) with their payloads. -/
inductive Event where
  | progress (task_type : TaskType) (percentage : Nat)
  | result (kind : ResultKind) (data : String)
  | error (message : String)
  | finished
  deriving DecidableEq

/-- Engine environment of one worker run: library availability as probed by
the `if not easyocr:` / `if not GPT4All:` / `if not cv2:` checks, filesystem
and image-decoding observations, and the two blocking engine calls. -/
structure Env where
  easyocr_ok : Bool
  gpt4all_ok : Bool
  cv2_ok : Bool
  path_exists : String → Bool
  imread_ok : String → Bool
  readtext : String → Except String (List String)
  generate : String → Except String String

/-- Python truthiness of an optional string: `not x` is true for `None`
and for the empty string. -/
def py_falsy : Option String → Bool
  | none => true
  | some s => s = ""

/-- Python's `str.strip()`: the string with leading and trailing whitespace
characters removed (computed on the character list so that the kernel can
evaluate it on concrete strings). -/
def pyStrip (s : String) : String :=
  String.mk (((s.toList.dropWhile Char.isWhitespace).reverse.dropWhile
    Char.isWhitespace).reverse)

def msg_no_easyocr : String :=
  "EasyOCR이 설치되지 않았습니다. 'pip install easyocr'로 설치 후 다시 시도해주세요."

def msg_no_gpt4all : String :=
  "GPT4All이 설치되지 않았습니다. 'pip install gpt4all'로 설치 후 다시 시도해주세요."

def msg_no_cv2 : String :=
  "OpenCV (cv2)가 설치되지 않았습니다. 'pip install opencv-python'으로 설치 후 다시 시도해주세요."

def msg_bad_image_path : String :=
  "OCR을 위한 이미지 경로가 유효하지 않습니다."

def msg_imread_failed (p : String) : String :=
  "OpenCV가 이미지를 로드할 수 없습니다: " ++ p ++ ". 파일 경로 또는 파일 손상 여부를 확인하세요."

def msg_no_text : String :=
  "해설을 위한 텍스트 입력이 없습니다."

def correction_prompt_head : String :=
  "다음은 이미지에서 광학 문자 인식(OCR)을 통해 추출된 텍스트입니다. 이 텍스트에는 오류가 포함되어 있을 수 있습니다. 원본의 의미를 유지하면서 문법, 철자, 구두점 오류를 수정하고, 필요한 경우 가독성을 높이기 위해 문장을 자연스럽게 다듬어주십시오. 추가적인 설명이나 주석 없이 교정된 텍스트만 제공해주세요. 한국어로 답변해주세요.\n\nOCR 텍스트:\n---\n"

def correction_prompt_tail : String :=
  "\n---\n\n교정된 텍스트:"

/-- `prompt_template_correction.format(TEXT_TO_CORRECT=...)`. -/
def correction_prompt (text_to_correct : String) : String :=
  correction_prompt_head ++ text_to_correct ++ correction_prompt_tail

def explanation_prompt_head : String :=
  "다음은 문서의 내용입니다. 이 문서가 어떤 종류의 문서인지 (예: 이메일, 보고서, 기사, 메모 등), 주요 내용은 무엇인지, 그리고 이 문서의 전반적인 목적은 무엇으로 보이는지 간략하게 설명해주세요. 한국어로 답변해주세요.\n\n문서 내용:\n---\n"

def explanation_prompt_tail : String :=
  "\n---\n\n설명:"

/-- `prompt_template_explanation.format(DOCUMENT_TEXT=...)`. -/
def explanation_prompt (document_text : String) : String :=
  explanation_prompt_head ++ document_text ++ explanation_prompt_tail

/-- `OCRLLMWorker.run`, as the list of signal emissions of one attempt,
in order. `stop k` is the value returned by the k-th `self.stop_event.is_set()`
call of this run (the `ocr_correct` branch polls the flag three times, the
`explain` branch once). Note that the early-return branches taken when the
stop flag is set emit `finished` explicitly and then return into the
`finally:` block, which emits `finished` again. -/
def runWorker (env : Env) (task_type : TaskType)
    (image_path text_input : Option String) (stop : Nat → Bool) : List Event :=
  match task_type with
  | .ocr_correct =>
    if env.easyocr_ok = false then [.error msg_no_easyocr, .finished]
    else if env.gpt4all_ok = false then [.error msg_no_gpt4all, .finished]
    else if env.cv2_ok = false then [.error msg_no_cv2, .finished]
    else if py_falsy image_path = true ∨ env.path_exists (image_path.getD "") = false then
      [.progress .ocr_correct 5, .error msg_bad_image_path, .finished]
    else if env.imread_ok (image_path.getD "") = false then
      [.progress .ocr_correct 5, .error (msg_imread_failed (image_path.getD "")), .finished]
    else if stop 0 = true then
      [.progress .ocr_correct 5, .progress .ocr_correct 10, .finished, .finished]
    else
      match env.readtext (image_path.getD "") with
      | .error m =>
        [.progress .ocr_correct 5, .progress .ocr_correct 10, .error m, .finished]
      | .ok raw_ocr_results =>
        if stop 1 = true then
          [.progress .ocr_correct 5, .progress .ocr_correct 10,
           .result .ocr_result (String.intercalate "\n" raw_ocr_results),
           .progress .ocr_correct 50, .finished, .finished]
        else if stop 2 = true then
          [.progress .ocr_correct 5, .progress .ocr_correct 10,
           .result .ocr_result (String.intercalate "\n" raw_ocr_results),
           .progress .ocr_correct 50, .progress .ocr_correct 55, .finished, .finished]
        else
          match env.generate (correction_prompt (String.intercalate "\n" raw_ocr_results)) with
          | .error m =>
            [.progress .ocr_correct 5, .progress .ocr_correct 10,
             .result .ocr_result (String.intercalate "\n" raw_ocr_results),
             .progress .ocr_correct 50, .progress .ocr_correct 55, .error m, .finished]
          | .ok corrected_text =>
            [.progress .ocr_correct 5, .progress .ocr_correct 10,
             .result .ocr_result (String.intercalate "\n" raw_ocr_results),
             .progress .ocr_correct 50, .progress .ocr_correct 55,
             .result .corrected_text_result (pyStrip corrected_text),
             .progress .ocr_correct 100, .finished]
  | .explain =>
    if env.gpt4all_ok = false then [.error msg_no_gpt4all, .finished]
    else if py_falsy text_input = true then
      [.progress .explain 10, .error msg_no_text, .finished]
    else if stop 0 = true then
      [.progress .explain 10, .finished, .finished]
    else
      match env.generate (explanation_prompt (text_input.getD "")) with
      | .error m => [.progress .explain 10, .error m, .finished]
      | .ok explanation =>
        [.progress .explain 10, .result .explanation_result (pyStrip explanation),
         .progress .explain 100, .finished]

/-- The subsequence of progress percentages of an event trace. -/
def progressValues (events : List Event) : List Nat :=
  events.filterMap fun e =>
    match e with
    | .progress _ v => some v
    | _ => none

/-- How many `finished` signals a trace contains. -/
def countFinished (events : List Event) : Nat :=
  events.countP fun e => e = Event.finished

/-- Whether a trace is non-empty and its last emission is `finished`. -/
def lastIsFinished : List Event → Bool
  | [] => false
  | [.finished] => true
  | [_] => false
  | _ :: e :: rest => lastIsFinished (e :: rest)

/-- Scanning check that within a trace every `corrected_text_result` is
preceded by an `ocr_result`; `seen_raw` records whether an `ocr_result`
has already passed. -/
def correctedAfterRaw : List Event → Bool → Bool
  | [], _ => true
  | .result .corrected_text_result _ :: rest, seen_raw =>
      seen_raw && correctedAfterRaw rest seen_raw
  | .result .ocr_result _ :: rest, _ => correctedAfterRaw rest true
  | _ :: rest, seen_raw => correctedAfterRaw rest seen_raw

/-- Sanity scenario: a healthy two-stage run over a recognition engine
returning one fragment emits the full ordered trace ending in a single
`finished`. -/
theorem scenario_recognize_and_correct :
    runWorker
      { easyocr_ok := true, gpt4all_ok := true, cv2_ok := true,
        path_exists := fun _ => true, imread_ok := fun _ => true,
        readtext := fun _ => .ok ["Hello wrold"],
        generate := fun _ => .ok "Hello world." }
      .ocr_correct (some "doc.png") none (fun _ => false) =
    [.progress .ocr_correct 5, .progress .ocr_correct 10,
     .result .ocr_result "Hello wrold", .progress .ocr_correct 50,
     .progress .ocr_correct 55, .result .corrected_text_result "Hello world.",
     .progress .ocr_correct 100, .finished] := by decide

/-- What `_start_background_worker` hands to `QThreadPool.start`: the
constructor arguments of the `OCRLLMWorker` that determine its behaviour
(the preloaded engine instances and the model name are environment data,
carried by `Env` instead). -/
structure WorkerSpec where
  task_type : TaskType
  image_path : Option String
  text_input : Option String
  deriving DecidableEq

/-- The `MainWindow` attributes the orchestration logic reads or writes.
`worker_active` is `current_worker_runnable is not None` (the single worker
slot); `stop_requested` is the value of the most recently allocated
`stop_current_worker_event` flag. `ocr_usable` stands for
`self.ocr_reader_instance or easyocr`, `llm_usable` for
`self.llm_model_instance or GPT4All`, and `cv2_available` for `cv2` being
importable, the three gate conditions of `run_ocr_correction_task` /
`run_explanation_task`. The status label, pixmaps and the always-enabled
cancel button are omitted: no decision in the source reads them. -/
structure GuiState where
  current_image_path : Option String
  raw_ocr_text : String
  current_corrected_text : String
  final_accepted_text_for_explanation : String
  progress_bar : Nat
  worker_active : Bool
  stop_requested : Bool
  analyze_enabled : Bool
  ocr_usable : Bool
  llm_usable : Bool
  cv2_available : Bool
  deriving DecidableEq

/-- `set_buttons_for_task_running_state`: the analyze button is enabled
iff no task is running and an image is loaded. -/
def set_buttons_for_task_running_state (s : GuiState) (is_running : Bool) : GuiState :=
  { s with analyze_enabled := !is_running && !py_falsy s.current_image_path }

/-- `MainWindow._start_background_worker`: if the worker slot is occupied
it reports the busy error on the status label and returns without spawning
(`none`); otherwise it resets the progress bar, allocates a fresh (unset)
stop event, occupies the slot, hands the new worker to the thread pool
(`some spec`) and disables the analyze button. -/
def start_background_worker (s : GuiState) (task_type : TaskType)
    (image_path text_input : Option String) : GuiState × Option WorkerSpec :=
  if s.worker_active = true then (s, none)
  else
    (set_buttons_for_task_running_state
      { s with progress_bar := 0, stop_requested := false, worker_active := true }
      true,
     some { task_type := task_type, image_path := image_path, text_input := text_input })

/-- `MainWindow.run_ocr_correction_task`: synchronous gate checks (selected
image present, OCR and LLM engines usable, cv2 importable), clearing of the
per-attempt texts, then `_start_background_worker("ocr_correct", ...)`. -/
def run_ocr_correction_task (s : GuiState) : GuiState × Option WorkerSpec :=
  if py_falsy s.current_image_path = true then (s, none)
  else if s.ocr_usable = false then (s, none)
  else if s.llm_usable = false then (s, none)
  else if s.cv2_available = false then (s, none)
  else
    start_background_worker
      { s with raw_ocr_text := "", current_corrected_text := "" }
      .ocr_correct s.current_image_path none

/-- `MainWindow.run_explanation_task`: synchronous gate checks (non-empty
text, LLM engine usable), then `_start_background_worker("explain", ...)`. -/
def run_explanation_task (s : GuiState) (text_for_explanation : String) :
    GuiState × Option WorkerSpec :=
  if text_for_explanation = "" then (s, none)
  else if s.llm_usable = false then (s, none)
  else start_background_worker s .explain none (some text_for_explanation)

/-- `MainWindow.cancel_current_worker_if_running`: when a worker is active,
sets its stop event, immediately abandons the slot (`current_worker_runnable
= None`) without waiting for the worker's `finished` signal, re-enables the
buttons and zeroes the progress bar; returns whether a cancel happened. -/
def cancel_current_worker_if_running (s : GuiState) : GuiState × Bool :=
  if s.worker_active = true then
    (set_buttons_for_task_running_state
      { s with stop_requested := true, worker_active := false, progress_bar := 0 }
      false,
     true)
  else (s, false)

/-- `MainWindow.reset_ui_after_task`: zero the progress bar, clear the three
stored texts; a full reset also forgets the loaded image. -/
def reset_ui_after_task (s : GuiState) (full_reset : Bool) : GuiState :=
  let s1 := { s with progress_bar := 0, raw_ocr_text := "",
                     current_corrected_text := "",
                     final_accepted_text_for_explanation := "" }
  let s2 :=
    if full_reset = true then
      { s1 with current_image_path := none, analyze_enabled := false }
    else
      { s1 with analyze_enabled := !py_falsy s1.current_image_path }
  set_buttons_for_task_running_state s2 false

/-- `MainWindow.cancel_or_reset_all_processes` (the cancel/reset button). -/
def cancel_or_reset_all_processes (s : GuiState) : GuiState :=
  reset_ui_after_task (cancel_current_worker_if_running s).1 true

/-- `MainWindow.load_image_and_prepare_analysis`: first cancels any running
worker, then records the new image, clears the texts of prior attempts,
zeroes the progress bar and enables the analyze button. -/
def load_image_and_prepare_analysis (s : GuiState) (image_path : String) : GuiState :=
  let s1 := (cancel_current_worker_if_running s).1
  { s1 with current_image_path := some image_path,
            raw_ocr_text := "", current_corrected_text := "",
            final_accepted_text_for_explanation := "",
            progress_bar := 0, analyze_enabled := true }

/-- `MainWindow.handle_worker_finished`: if the slot still holds a runnable
it tops the progress bar up to 100 (the guard `task_type !=
"corrected_text_result"` in the source compares the worker's task type —
`"ocr_correct"` or `"explain"` — against a result kind, so it is always
true), then releases the slot and drops the stop event reference. -/
def handle_worker_finished (s : GuiState) : GuiState :=
  let s1 := if s.worker_active = true then { s with progress_bar := 100 } else s
  set_buttons_for_task_running_state { s1 with worker_active := false } false

/-- `MainWindow.handle_worker_progress`: the progress bar shows the value. -/
def handle_worker_progress (s : GuiState) (value : Nat) : GuiState :=
  { s with progress_bar := value }

/-- `MainWindow.handle_worker_error`: report, zero the progress bar, release
the slot, then `reset_ui_after_task(full_reset=True)`. -/
def handle_worker_error (s : GuiState) : GuiState :=
  reset_ui_after_task
    (set_buttons_for_task_running_state
      { s with progress_bar := 0, worker_active := false } false)
    true

/-- Outcome of `ComparisonDialog.exec()`: `done(1)` for redo, `done(2)` with
the current contents of the editable text box for accept, `reject()` (code 0,
also the window-close path) for cancel. -/
inductive DialogOutcome where
  | redo
  | accept (edited_text : String)
  | cancelled
  deriving DecidableEq

/-- `MainWindow.show_comparison_dialog`: guard on a loaded image, run the
modal dialog, then dispatch on the user's decision. On accept, the edited
text is stored and, when non-blank, handed to `run_explanation_task`;
a blank acceptance warns and resets. Redo re-runs the full analysis. -/
def show_comparison_dialog (s : GuiState) (outcome : DialogOutcome) :
    GuiState × Option WorkerSpec :=
  if py_falsy s.current_image_path = true then (reset_ui_after_task s true, none)
  else
    match outcome with
    | .redo => run_ocr_correction_task s
    | .accept edited_text =>
      let s1 := { s with final_accepted_text_for_explanation := edited_text }
      if edited_text ≠ "" ∧ pyStrip edited_text ≠ "" then
        run_explanation_task s1 edited_text
      else
        (reset_ui_after_task s1 false, none)
    | .cancelled => (reset_ui_after_task s true, none)

/-- `MainWindow.handle_worker_result` for `"ocr_result"`. -/
def handle_ocr_result (s : GuiState) (data : String) : GuiState :=
  { s with raw_ocr_text := data }

/-- `MainWindow.handle_worker_result` for `"corrected_text_result"`: store
the corrected text, then open the comparison dialog, whose outcome decides
what runs next. -/
def handle_corrected_text_result (s : GuiState) (data : String)
    (outcome : DialogOutcome) : GuiState × Option WorkerSpec :=
  show_comparison_dialog { s with current_corrected_text := data } outcome

/-- `MainWindow.handle_worker_result` for `"explanation_result"`: show the
modal explanation dialog, then `reset_ui_after_task(full_reset=True)`. -/
def handle_explanation_result (s : GuiState) : GuiState :=
  reset_ui_after_task s true

/-- The `MainWindow.__init__` state: nothing loaded, empty texts, slot free.
The three flags record which engine stacks loaded successfully at startup. -/
def initState (ocr llm cv : Bool) : GuiState :=
  { current_image_path := none, raw_ocr_text := "",
    current_corrected_text := "", final_accepted_text_for_explanation := "",
    progress_bar := 0, worker_active := false, stop_requested := false,
    analyze_enabled := false, ocr_usable := ocr, llm_usable := llm,
    cv2_available := cv }

/-- One activation of the GUI thread: either a user interaction or the
delivery of one queued worker signal to its connected handler. The delivery
of a `corrected_text_result` signal opens the modal comparison dialog inside
the handler, so the user's decision is part of that activation. -/
inductive GuiAction where
  | loadImage (image_path : String)
  | clickAnalyze
  | clickCancel
  | finishedSignal
  | progressSignal (value : Nat)
  | ocrResultSignal (data : String)
  | correctedResultSignal (data : String) (outcome : DialogOutcome)
  | explanationResultSignal (data : String)
  | errorSignal

/-- System trace: the GUI state plus ghost instrumentation. `spawns` counts
workers handed to the thread pool, `finished_seen` counts `finished` signals
delivered to `handle_worker_finished`, and `early_start` latches whether some
worker was ever spawned while a previously spawned worker's `finished` signal
had not yet been observed. -/
structure Trace where
  s : GuiState
  spawns : Nat
  finished_seen : Nat
  early_start : Bool
  deriving DecidableEq

/-- Record a handler outcome on the trace, updating the ghost fields when a
worker was spawned. -/
def applySpawn (tr : Trace) (res : GuiState × Option WorkerSpec) : Trace :=
  match res.2 with
  | none => { tr with s := res.1 }
  | some _ =>
    { s := res.1, spawns := tr.spawns + 1, finished_seen := tr.finished_seen,
      early_start := tr.early_start || decide (tr.finished_seen < tr.spawns) }

/-- The effect of one GUI-thread activation. -/
def stepAction (tr : Trace) : GuiAction → Trace
  | .loadImage p => { tr with s := load_image_and_prepare_analysis tr.s p }
  | .clickAnalyze => applySpawn tr (run_ocr_correction_task tr.s)
  | .clickCancel => { tr with s := cancel_or_reset_all_processes tr.s }
  | .finishedSignal =>
    { tr with s := handle_worker_finished tr.s,
              finished_seen := tr.finished_seen + 1 }
  | .progressSignal v => { tr with s := handle_worker_progress tr.s v }
  | .ocrResultSignal d => { tr with s := handle_ocr_result tr.s d }
  | .correctedResultSignal d outcome =>
    applySpawn tr (handle_corrected_text_result tr.s d outcome)
  | .explanationResultSignal _ => { tr with s := handle_explanation_result tr.s }
  | .errorSignal => { tr with s := handle_worker_error tr.s }

/-- Replay a sequence of GUI-thread activations from a given initial state. -/
def runScript (s0 : GuiState) (script : List GuiAction) : Trace :=
  script.foldl stepAction { s := s0, spawns := 0, finished_seen := 0, early_start := false }

/-- Activations other than loading a new image. Loading a new image is the
one activation that both releases the worker slot synchronously (via the
cancel call inside `load_image_and_prepare_analysis`) and re-arms the
analyze path with a fresh image; the cancel button and the error handler
also release the slot early, but they clear the loaded image at the same
time, so no new attempt can start from them without a subsequent image
load. -/
def safeAction : GuiAction → Bool
  | .loadImage _ => false
  | _ => true

/-- Relation between a handler outcome and its input state: a worker is
spawned only from a free slot and the spawn occupies the slot; a
non-spawning outcome leaves slot occupancy unchanged. -/
def SpawnOk (r : GuiState × Option WorkerSpec) (s : GuiState) : Prop :=
  (r.2.isSome = true → s.worker_active = false ∧ r.1.worker_active = true) ∧
  (r.2 = none → r.1.worker_active = s.worker_active)

/-- Accounting part of the slot invariant: the number of spawned attempts
exceeds the number of observed `finished` signals at most by the occupancy
of the worker slot. -/
def SlotCounts (tr : Trace) : Prop :=
  (tr.s.worker_active = true → tr.spawns ≤ tr.finished_seen + 1) ∧
  (tr.s.worker_active = false → tr.spawns ≤ tr.finished_seen)

/-- Absorbing part of the slot invariant: no image is loaded and the slot
is free. The cancel button and the error handler put the system here (they
release the slot early but also clear the image via the full UI reset), and
without a `loadImage` activation no worker can ever be spawned from here,
whatever the counters say. -/
def NoImageIdle (tr : Trace) : Prop :=
  py_falsy tr.s.current_image_path = true ∧ tr.s.worker_active = false

/-- Ghost invariant: no early start latched, and either the attempt
counters track the slot or the system is image-less and idle. -/
def SlotInv (tr : Trace) : Prop :=
  tr.early_start = false ∧ (SlotCounts tr ∨ NoImageIdle tr)

/-- A fully healthy engine environment used for concrete scenarios. -/
def envGood : Env :=
  { easyocr_ok := true, gpt4all_ok := true, cv2_ok := true,
    path_exists := fun _ => true, imread_ok := fun _ => true,
    readtext := fun _ => .ok ["Hello wrold"],
    generate := fun _ => .ok "Hello world." }

/-- An environment whose image file exists but cannot be decoded by
`cv2.imread`. -/
def env_unreadable : Env :=
  { easyocr_ok := true, gpt4all_ok := true, cv2_ok := true,
    path_exists := fun _ => true, imread_ok := fun _ => false,
    readtext := fun _ => .ok [], generate := fun _ => .ok "" }

/-- Idle orchestrator with a loaded image and all dependencies present. -/
def s_idle_with_image : GuiState :=
  { initState true true true with
      current_image_path := some "doc.png", analyze_enabled := true }

/-- The same state while a worker occupies the slot. -/
def s_busy : GuiState := { s_idle_with_image with worker_active := true }

/-- Idle orchestrator whose loaded image file exists but is undecodable. -/
def s_unreadable : GuiState :=
  { initState true true true with
      current_image_path := some "unreadable.png", analyze_enabled := true }

/-- A replay of a full first attempt followed by a Redo-started second
attempt: analyze, delivery of the raw result, final progress and the
`finished` signal, then the corrected result whose comparison dialog the
user resolves with Redo, and the second attempt's `finished` signal. -/
def redo_replay : List GuiAction :=
  [.clickAnalyze, .ocrResultSignal "Hello wrold", .progressSignal 100,
   .finishedSignal, .correctedResultSignal "Hello world." .redo,
   .finishedSignal]

/-- C1: a `_start_background_worker` call made while the worker slot is
occupied (a task is active) returns without spawning a worker and without
changing the orchestration state (only the status label reports the busy
error); and of two serialized `start` calls from a free slot, exactly the
first spawns — the second finds the slot occupied and fails busy. -/
theorem c1_single_flight :
    (∀ (s : GuiState) (t : TaskType) (ip ti : Option String),
      s.worker_active = true →
        (start_background_worker s t ip ti).2 = none ∧
        (start_background_worker s t ip ti).1 = s) ∧
    (∀ (s : GuiState) (t1 t2 : TaskType) (ip1 ti1 ip2 ti2 : Option String),
      s.worker_active = false →
        (start_background_worker s t1 ip1 ti1).2 =
          some { task_type := t1, image_path := ip1, text_input := ti1 } ∧
        (start_background_worker
          (start_background_worker s t1 ip1 ti1).1 t2 ip2 ti2).2 = none) := by
  constructor
  · intro s t ip ti h
    simp [start_background_worker, h]
  · intro s t1 t2 ip1 ti1 ip2 ti2 h
    simp [start_background_worker, h, set_buttons_for_task_running_state]

/-- Concrete instantiation of `c1_single_flight`: from the idle state the
first of two start calls spawns and the second fails busy. -/
theorem c1_single_flight_witness :
    (start_background_worker s_idle_with_image .ocr_correct (some "doc.png") none).2 =
      some { task_type := .ocr_correct, image_path := some "doc.png",
             text_input := none } ∧
    (start_background_worker
      (start_background_worker s_idle_with_image .ocr_correct (some "doc.png") none).1
      .explain none (some "text")).2 = none :=
  c1_single_flight.2 s_idle_with_image .ocr_correct .explain
    (some "doc.png") none none (some "text") rfl

/-- C3: on every path of either task type on which the stop flag is never
observed set — success, invalid input, engine error — the worker emits
exactly one `finished` signal, and on every path whatsoever the last
emission is `finished`; but on the failing input (an `ocr_correct` attempt
over a healthy environment whose stop event is set at the first
stage-boundary check, and likewise at the later checks or the `explain`
type's single check) the worker emits `finished` twice — once in the
explicit early-return branch and once more in the `finally:` block —
instead of the exactly-once the claim states. -/
theorem c3_double_finished_on_cancel :
    (∀ (env : Env) (t : TaskType) (ip ti : Option String),
      countFinished (runWorker env t ip ti (fun _ => false)) = 1) ∧
    (∀ (env : Env) (t : TaskType) (ip ti : Option String) (stop : Nat → Bool),
      lastIsFinished (runWorker env t ip ti stop) = true) ∧
    runWorker envGood .ocr_correct (some "doc.png") none (fun _ => true) =
      [.progress .ocr_correct 5, .progress .ocr_correct 10, .finished, .finished] ∧
    countFinished (runWorker envGood .ocr_correct (some "doc.png") none (fun _ => true)) = 2 := by
  refine ⟨?_, ?_, by decide, by decide⟩
  · intro env t ip ti
    unfold runWorker
    repeat' split
    all_goals first | rfl | simp_all
  · intro env t ip ti stop
    unfold runWorker
    repeat' split
    all_goals rfl

/-- C4 (counterexample): with an unreadable image file on disk the start
path spawns a worker, and that worker emits events — Progress(5), an error,
and `finished` — contradicting the claim that an unreadable image is
detected synchronously in `start()` with no worker spawned and no events
emitted. -/
theorem c4_unreadable_image_counterexample :
    (run_ocr_correction_task s_unreadable).2 =
      some { task_type := .ocr_correct, image_path := some "unreadable.png",
             text_input := none } ∧
    runWorker env_unreadable .ocr_correct (some "unreadable.png") none (fun _ => false) =
      [.progress .ocr_correct 5, .error (msg_imread_failed "unreadable.png"),
       .finished] ∧
    runWorker env_unreadable .ocr_correct (some "unreadable.png") none (fun _ => false) ≠
      [] := by
  refine ⟨by decide, by decide, by decide⟩

/-- C4 (amended): an empty or missing payload is detected synchronously —
`run_ocr_correction_task` with no/empty image path and
`run_explanation_task` with empty text return unchanged and spawn nothing,
so no events are emitted for the call — whereas a nonexistent or unreadable
image file passes the synchronous check and is only detected inside the
spawned worker, which then emits Progress(5), an error event and
`finished`. -/
theorem c4_sync_invalid_input :
    (∀ s : GuiState, py_falsy s.current_image_path = true →
      run_ocr_correction_task s = (s, none)) ∧
    (∀ s : GuiState, run_explanation_task s "" = (s, none)) ∧
    (∀ (env : Env) (p : String) (ti : Option String) (stop : Nat → Bool),
      env.easyocr_ok = true → env.gpt4all_ok = true → env.cv2_ok = true →
      p ≠ "" → env.path_exists p = true → env.imread_ok p = false →
      runWorker env .ocr_correct (some p) ti stop =
        [.progress .ocr_correct 5, .error (msg_imread_failed p), .finished]) := by
  refine ⟨?_, ?_, ?_⟩
  · intro s h
    simp [run_ocr_correction_task, h]
  · intro s
    simp [run_explanation_task]
  · intro env p ti stop h1 h2 h3 h4 h5 h6
    simp [runWorker, h1, h2, h3, h4, h5, h6, py_falsy]

/-- Concrete instantiation of `c4_sync_invalid_input`. -/
theorem c4_sync_invalid_input_witness :
    run_ocr_correction_task (initState true true true) = (initState true true true, none) ∧
    run_explanation_task s_idle_with_image "" = (s_idle_with_image, none) ∧
    runWorker env_unreadable .ocr_correct (some "unreadable.jpg") none (fun _ => false) =
      [.progress .ocr_correct 5, .error (msg_imread_failed "unreadable.jpg"),
       .finished] :=
  ⟨c4_sync_invalid_input.1 (initState true true true) rfl,
   c4_sync_invalid_input.2.1 s_idle_with_image,
   c4_sync_invalid_input.2.2 env_unreadable "unreadable.jpg" none (fun _ => false)
     rfl rfl rfl (by decide) rfl rfl⟩

/-- C10: loading a new image first cancels any currently running worker
(the stop event of an active attempt is set and the slot is released), then
clears the raw, corrected and accepted texts and resets the progress bar to
zero, so no stored result of an earlier task survives into the next
analysis. -/
theorem c10_load_image_resets :
    ∀ (s : GuiState) (p : String),
      (load_image_and_prepare_analysis s p).raw_ocr_text = "" ∧
      (load_image_and_prepare_analysis s p).current_corrected_text = "" ∧
      (load_image_and_prepare_analysis s p).final_accepted_text_for_explanation = "" ∧
      (load_image_and_prepare_analysis s p).progress_bar = 0 ∧
      (load_image_and_prepare_analysis s p).current_image_path = some p ∧
      (load_image_and_prepare_analysis s p).worker_active = false ∧
      (s.worker_active = true →
        (load_image_and_prepare_analysis s p).stop_requested = true) := by
  intro s p
  by_cases h : s.worker_active = true <;>
    simp [load_image_and_prepare_analysis, cancel_current_worker_if_running,
      set_buttons_for_task_running_state, h]

/-- Concrete instantiation of `c10_load_image_resets` at a state with a
running worker and stale texts. -/
theorem c10_load_image_resets_witness :
    (load_image_and_prepare_analysis
      { s_busy with raw_ocr_text := "old raw", current_corrected_text := "old corr",
                    final_accepted_text_for_explanation := "old acc",
                    progress_bar := 55 } "new.png").raw_ocr_text = "" ∧
    (load_image_and_prepare_analysis
      { s_busy with raw_ocr_text := "old raw", current_corrected_text := "old corr",
                    final_accepted_text_for_explanation := "old acc",
                    progress_bar := 55 } "new.png").stop_requested = true := by
  have h := c10_load_image_resets
    { s_busy with raw_ocr_text := "old raw", current_corrected_text := "old corr",
                  final_accepted_text_for_explanation := "old acc",
                  progress_bar := 55 } "new.png"
  exact ⟨h.1, h.2.2.2.2.2.2 rfl⟩

/-- C7: when the comparison dialog is resolved with Accept and the edited
text is non-blank, the orchestrator starts an Explain worker whose
`text_input` payload is exactly the edited text from the dialog's editable
box — not the corrected text the generation engine produced. -/
theorem c7_accept_uses_edited_text :
    ∀ (s : GuiState) (edited_text : String),
      py_falsy s.current_image_path = false →
      s.worker_active = false →
      s.llm_usable = true →
      pyStrip edited_text ≠ "" →
      (show_comparison_dialog s (.accept edited_text)).2 =
        some { task_type := .explain, image_path := none,
               text_input := some edited_text } := by
  intro s edited_text h1 h2 h3 h4
  have hne : edited_text ≠ "" := by
    intro hcontra
    exact h4 (by simp [hcontra, pyStrip])
  simp [show_comparison_dialog, h1, hne, h4, run_explanation_task, h3,
    start_background_worker, h2]

/-- Concrete instantiation of `c7_accept_uses_edited_text`: corrected text
"Hello wrold." edited to "Hello world." yields an Explain payload equal to
"Hello world.", which differs from the engine's corrected text. -/
theorem c7_accept_uses_edited_text_witness :
    (show_comparison_dialog
      { s_idle_with_image with raw_ocr_text := "Hello wrold",
                               current_corrected_text := "Hello wrold." }
      (.accept "Hello world.")).2 =
      some { task_type := .explain, image_path := none,
             text_input := some "Hello world." } ∧
    "Hello world." ≠ "Hello wrold." :=
  ⟨c7_accept_uses_edited_text
    { s_idle_with_image with raw_ocr_text := "Hello wrold",
                             current_corrected_text := "Hello wrold." }
    "Hello world." rfl rfl rfl (by decide), by decide⟩

/-- C8: when the text accepted at the review checkpoint is empty or
whitespace-only, no Explain worker is started; the stored raw, corrected
and accepted texts are cleared, the progress bar is reset to zero, the
loaded image is kept, and the worker slot stays as it was (idle). -/
theorem c8_blank_accept_resets :
    ∀ (s : GuiState) (edited_text : String),
      py_falsy s.current_image_path = false →
      pyStrip edited_text = "" →
      (show_comparison_dialog s (.accept edited_text)).2 = none ∧
      (show_comparison_dialog s (.accept edited_text)).1.raw_ocr_text = "" ∧
      (show_comparison_dialog s (.accept edited_text)).1.current_corrected_text = "" ∧
      (show_comparison_dialog s (.accept edited_text)).1.final_accepted_text_for_explanation = "" ∧
      (show_comparison_dialog s (.accept edited_text)).1.progress_bar = 0 ∧
      (show_comparison_dialog s (.accept edited_text)).1.current_image_path =
        s.current_image_path ∧
      (show_comparison_dialog s (.accept edited_text)).1.worker_active =
        s.worker_active := by
  intro s edited_text h1 h2
  simp [show_comparison_dialog, h1, h2, reset_ui_after_task,
    set_buttons_for_task_running_state]

/-- Concrete instantiation of `c8_blank_accept_resets` with a
whitespace-only acceptance. -/
theorem c8_blank_accept_resets_witness :
    (show_comparison_dialog
      { s_idle_with_image with raw_ocr_text := "raw",
                               current_corrected_text := "corrected" }
      (.accept "   ")).2 = none ∧
    (show_comparison_dialog
      { s_idle_with_image with raw_ocr_text := "raw",
                               current_corrected_text := "corrected" }
      (.accept "   ")).1.current_corrected_text = "" := by
  have h := c8_blank_accept_resets
    { s_idle_with_image with raw_ocr_text := "raw",
                             current_corrected_text := "corrected" }
    "   " rfl (by decide)
  exact ⟨h.1, h.2.2.1⟩

/-- C5: on every execution path of either task type the emitted Progress
percentages are non-decreasing; on the success path the emitted checkpoints
are exactly 5, 10, 50, 55, 100 for the two-stage `ocr_correct` type and
10, 100 for the single-stage `explain` type, ending at 100. -/
theorem c5_progress_checkpoints :
    (∀ (env : Env) (t : TaskType) (ip ti : Option String) (stop : Nat → Bool),
      List.Chain' (· ≤ ·) (progressValues (runWorker env t ip ti stop))) ∧
    (∀ (env : Env) (ip ti : Option String) (stop : Nat → Bool),
      env.easyocr_ok = true → env.gpt4all_ok = true → env.cv2_ok = true →
      py_falsy ip = false → env.path_exists (ip.getD "") = true →
      env.imread_ok (ip.getD "") = true →
      stop 0 = false → stop 1 = false → stop 2 = false →
      (∃ frags, env.readtext (ip.getD "") = .ok frags) →
      (∀ p, ∃ g, env.generate p = .ok g) →
      progressValues (runWorker env .ocr_correct ip ti stop) = [5, 10, 50, 55, 100]) ∧
    (∀ (env : Env) (ip ti : Option String) (stop : Nat → Bool),
      env.gpt4all_ok = true → py_falsy ti = false → stop 0 = false →
      (∃ g, env.generate (explanation_prompt (ti.getD "")) = .ok g) →
      progressValues (runWorker env .explain ip ti stop) = [10, 100]) := by
  refine ⟨?_, ?_, ?_⟩
  · intro env t ip ti stop
    unfold runWorker
    repeat' split
    all_goals simp +decide [progressValues, List.chain'_cons]
  · intro env ip ti stop h1 h2 h3 h4 h5 h6 h7 h8 h9 hr hg
    obtain ⟨frags, hfr⟩ := hr
    obtain ⟨g, hgg⟩ := hg (correction_prompt (String.intercalate "\n" frags))
    simp [runWorker, h1, h2, h3, h4, h5, h6, h7, h8, h9, hfr, hgg, progressValues]
  · intro env ip ti stop h1 h2 h3 hg
    obtain ⟨g, hgg⟩ := hg
    simp [runWorker, h1, h2, h3, hgg, progressValues]

/-- Concrete instantiation of `c5_progress_checkpoints` over the healthy
environment, for both task types. -/
theorem c5_progress_checkpoints_witness :
    progressValues (runWorker envGood .ocr_correct (some "doc.png") none
      (fun _ => false)) = [5, 10, 50, 55, 100] ∧
    progressValues (runWorker envGood .explain none (some "Hello world.")
      (fun _ => false)) = [10, 100] :=
  ⟨c5_progress_checkpoints.2.1 envGood (some "doc.png") none (fun _ => false)
    rfl rfl rfl (by decide) rfl rfl rfl rfl rfl
    ⟨["Hello wrold"], rfl⟩ (fun _ => ⟨"Hello world.", rfl⟩),
   c5_progress_checkpoints.2.2 envGood none (some "Hello world.") (fun _ => false)
    rfl (by decide) rfl ⟨"Hello world.", rfl⟩⟩

/-- C6: in every `ocr_correct` attempt, whatever the environment and
whenever the stop flag is observed, a `corrected_text_result` emission is
always preceded by an `ocr_result` emission within the same trace. -/
theorem c6_corrected_after_raw :
    ∀ (env : Env) (ip ti : Option String) (stop : Nat → Bool),
      correctedAfterRaw (runWorker env .ocr_correct ip ti stop) false = true := by
  intro env ip ti stop
  unfold runWorker
  repeat' split
  all_goals rfl

/-- C9: the data of every emitted result event is normalized — an
`ocr_result` payload is the recognition engine's fragments joined with a
newline, and `corrected_text_result` / `explanation_result` payloads are
the generation engine's output with surrounding whitespace stripped. -/
theorem c9_result_data_normalized :
    (∀ (env : Env) (ip ti : Option String) (stop : Nat → Bool) (d : String),
      Event.result .ocr_result d ∈ runWorker env .ocr_correct ip ti stop →
      ∃ frags, env.readtext (ip.getD "") = .ok frags ∧
        d = String.intercalate "\n" frags) ∧
    (∀ (env : Env) (ip ti : Option String) (stop : Nat → Bool) (d : String),
      Event.result .corrected_text_result d ∈ runWorker env .ocr_correct ip ti stop →
      ∃ frags g, env.readtext (ip.getD "") = .ok frags ∧
        env.generate (correction_prompt (String.intercalate "\n" frags)) = .ok g ∧
        d = pyStrip g) ∧
    (∀ (env : Env) (ip ti : Option String) (stop : Nat → Bool) (d : String),
      Event.result .explanation_result d ∈ runWorker env .explain ip ti stop →
      ∃ g, env.generate (explanation_prompt (ti.getD "")) = .ok g ∧
        d = pyStrip g) := by
  refine ⟨?_, ?_, ?_⟩
  · intro env ip ti stop d h
    unfold runWorker at h
    repeat' split at h
    all_goals simp_all
  · intro env ip ti stop d h
    unfold runWorker at h
    repeat' split at h
    all_goals simp_all
  · intro env ip ti stop d h
    unfold runWorker at h
    repeat' split at h
    all_goals simp_all

/-- Concrete instantiation of `c9_result_data_normalized` over the healthy
environment: the raw payload is the joined fragment list and the corrected
and explanation payloads are the stripped engine outputs. -/
theorem c9_result_data_normalized_witness :
    (∃ frags, envGood.readtext ((some "doc.png").getD "") = .ok frags ∧
      "Hello wrold" = String.intercalate "\n" frags) ∧
    (∃ frags g, envGood.readtext ((some "doc.png").getD "") = .ok frags ∧
      envGood.generate (correction_prompt (String.intercalate "\n" frags)) = .ok g ∧
      "Hello world." = pyStrip g) ∧
    (∃ g, envGood.generate (explanation_prompt ((some "doc text").getD "")) = .ok g ∧
      "Hello world." = pyStrip g) :=
  ⟨c9_result_data_normalized.1 envGood (some "doc.png") none (fun _ => false)
    "Hello wrold" (by decide),
   c9_result_data_normalized.2.1 envGood (some "doc.png") none (fun _ => false)
    "Hello world." (by decide),
   c9_result_data_normalized.2.2 envGood none (some "doc text") (fun _ => false)
    "Hello world." (by decide)⟩

theorem spawnOk_start_g (s s0 : GuiState) (t : TaskType) (ip ti : Option String)
    (h : s.worker_active = s0.worker_active) :
    SpawnOk (start_background_worker s t ip ti) s0 := by
  by_cases hw : s.worker_active = true <;>
    simp_all [SpawnOk, start_background_worker, set_buttons_for_task_running_state]

theorem spawnOk_run_ocr_g (s s0 : GuiState) (h : s.worker_active = s0.worker_active) :
    SpawnOk (run_ocr_correction_task s) s0 := by
  unfold run_ocr_correction_task
  repeat' split
  any_goals simp_all [SpawnOk]
  exact spawnOk_start_g _ _ _ _ _ (by simp [h])

theorem spawnOk_run_expl_g (s s0 : GuiState) (text : String)
    (h : s.worker_active = s0.worker_active) :
    SpawnOk (run_explanation_task s text) s0 := by
  unfold run_explanation_task
  repeat' split
  any_goals simp_all [SpawnOk]
  exact spawnOk_start_g _ _ _ _ _ (by simp [h])

theorem spawnOk_dialog_g (s s0 : GuiState) (outcome : DialogOutcome)
    (h : s.worker_active = s0.worker_active) :
    SpawnOk (show_comparison_dialog s outcome) s0 := by
  unfold show_comparison_dialog
  repeat' split
  any_goals
    simp_all [SpawnOk, reset_ui_after_task, set_buttons_for_task_running_state]
  · exact spawnOk_run_ocr_g _ _ (by simp [h])
  · exact spawnOk_run_expl_g _ _ _ (by simp [h])

theorem spawnOk_corrected (s : GuiState) (d : String) (outcome : DialogOutcome) :
    SpawnOk (handle_corrected_text_result s d outcome) s :=
  spawnOk_dialog_g _ _ _ rfl

theorem slotCounts_applySpawn (tr : Trace) (r : GuiState × Option WorkerSpec)
    (hok : SpawnOk r tr.s) (h1 : tr.early_start = false) (hc : SlotCounts tr) :
    (applySpawn tr r).early_start = false ∧ SlotCounts (applySpawn tr r) := by
  obtain ⟨h2, h3⟩ := hc
  obtain ⟨s', o⟩ := r
  cases o with
  | none =>
    have hw : s'.worker_active = tr.s.worker_active := hok.2 rfl
    refine ⟨h1, ?_, ?_⟩
    · intro ha
      simp only [applySpawn] at ha ⊢
      exact h2 (hw ▸ ha)
    · intro ha
      simp only [applySpawn] at ha ⊢
      exact h3 (hw ▸ ha)
  | some w =>
    obtain ⟨hpre, hpost⟩ := hok.1 rfl
    have hle : tr.spawns ≤ tr.finished_seen := h3 hpre
    refine ⟨?_, ?_, ?_⟩
    · simp only [applySpawn, h1, Bool.false_or]
      simpa using Nat.not_lt.mpr hle
    · intro _
      simp only [applySpawn]
      omega
    · intro ha
      simp only [applySpawn] at ha
      rw [ha] at hpost
      exact absurd hpost (by simp)

theorem slotInv_step (tr : Trace) (a : GuiAction) (ha : safeAction a = true)
    (hinv : SlotInv tr) : SlotInv (stepAction tr a) := by
  obtain ⟨h1, hrest⟩ := hinv
  cases a with
  | loadImage p => simp [safeAction] at ha
  | clickAnalyze =>
    rcases hrest with hc | hn
    · have h := slotCounts_applySpawn tr _ (spawnOk_run_ocr_g _ _ rfl) h1 hc
      exact ⟨h.1, Or.inl h.2⟩
    · have hno : run_ocr_correction_task tr.s = (tr.s, none) := by
        unfold run_ocr_correction_task
        simp [hn.1]
      refine ⟨?_, Or.inr ?_⟩
      · simp [stepAction, hno, applySpawn, h1]
      · simpa [stepAction, hno, applySpawn, NoImageIdle] using hn
  | clickCancel =>
    refine ⟨by simpa [stepAction] using h1, Or.inr ?_⟩
    by_cases hw : tr.s.worker_active = true <;>
      simp [stepAction, NoImageIdle, cancel_or_reset_all_processes,
        cancel_current_worker_if_running, reset_ui_after_task,
        set_buttons_for_task_running_state, py_falsy, hw]
  | errorSignal =>
    refine ⟨by simpa [stepAction] using h1, Or.inr ?_⟩
    simp [stepAction, NoImageIdle, handle_worker_error, reset_ui_after_task,
      set_buttons_for_task_running_state, py_falsy]
  | finishedSignal =>
    rcases hrest with hc | hn
    · obtain ⟨h2, h3⟩ := hc
      refine ⟨by simpa [stepAction] using h1, Or.inl ⟨?_, ?_⟩⟩
      · intro hwa
        exfalso
        simp [stepAction, handle_worker_finished,
          set_buttons_for_task_running_state] at hwa
      · intro _
        simp only [stepAction]
        by_cases hw : tr.s.worker_active = true
        · have := h2 hw
          omega
        · have := h3 (by simpa using hw)
          omega
    · refine ⟨by simpa [stepAction] using h1, Or.inr ⟨?_, ?_⟩⟩
      · simpa [stepAction, handle_worker_finished,
          set_buttons_for_task_running_state, hn.2] using hn.1
      · simp [stepAction, handle_worker_finished,
          set_buttons_for_task_running_state]
  | progressSignal v =>
    rcases hrest with hc | hn
    · exact ⟨h1, Or.inl ⟨fun hw => hc.1 hw, fun hw => hc.2 hw⟩⟩
    · exact ⟨h1, Or.inr ⟨hn.1, hn.2⟩⟩
  | ocrResultSignal d =>
    rcases hrest with hc | hn
    · exact ⟨h1, Or.inl ⟨fun hw => hc.1 hw, fun hw => hc.2 hw⟩⟩
    · exact ⟨h1, Or.inr ⟨hn.1, hn.2⟩⟩
  | correctedResultSignal d outcome =>
    rcases hrest with hc | hn
    · have h := slotCounts_applySpawn tr _ (spawnOk_corrected _ d outcome) h1 hc
      exact ⟨h.1, Or.inl h.2⟩
    · have hno : handle_corrected_text_result tr.s d outcome =
          (reset_ui_after_task { tr.s with current_corrected_text := d } true,
           none) := by
        unfold handle_corrected_text_result show_comparison_dialog
        simp [hn.1]
      refine ⟨?_, Or.inr ⟨?_, ?_⟩⟩
      · simp [stepAction, hno, applySpawn, h1]
      · simp [stepAction, hno, applySpawn, NoImageIdle, reset_ui_after_task,
          set_buttons_for_task_running_state, py_falsy]
      · simpa [stepAction, hno, applySpawn, reset_ui_after_task,
          set_buttons_for_task_running_state] using hn.2
  | explanationResultSignal d =>
    rcases hrest with hc | hn
    · refine ⟨h1, Or.inl ⟨?_, ?_⟩⟩
      · intro hw
        refine hc.1 ?_
        simpa [stepAction, handle_explanation_result, reset_ui_after_task,
          set_buttons_for_task_running_state] using hw
      · intro hw
        refine hc.2 ?_
        simpa [stepAction, handle_explanation_result, reset_ui_after_task,
          set_buttons_for_task_running_state] using hw
    · refine ⟨h1, Or.inr ⟨?_, ?_⟩⟩
      · simp [stepAction, handle_explanation_result, reset_ui_after_task,
          set_buttons_for_task_running_state, py_falsy]
      · simpa [stepAction, handle_explanation_result, reset_ui_after_task,
          set_buttons_for_task_running_state] using hn.2

theorem slotInv_foldl (script : List GuiAction) :
    ∀ tr : Trace, (∀ a ∈ script, safeAction a = true) → SlotInv tr →
      SlotInv (script.foldl stepAction tr) := by
  induction script with
  | nil => intro tr _ h; exact h
  | cons a rest ih =>
    intro tr hsafe hinv
    exact ih (stepAction tr a)
      (fun b hb => hsafe b (List.mem_cons_of_mem a hb))
      (slotInv_step tr a (hsafe a (List.mem_cons_self a rest)) hinv)

/-- C2 (amended): from any initial orchestration state, in every GUI-thread
execution that contains no new-image load, a later attempt is spawned only
when every previously spawned attempt's `finished` signal has already been
observed. This covers the post-Redo path (the slot was released by the
Finished handler before the dialog returned), and it also holds across
cancel-button presses and error-signal deliveries, because those handlers
clear the loaded image together with the slot, so no attempt can start
from them before a new image is loaded. Loading a new image, by contrast,
releases the slot synchronously without waiting for the `finished` signal,
so there a second attempt can start before the first attempt's
FinishedEvent is observed (`c2_interleaving_counterexample`). -/
theorem c2_attempt_gating :
    ∀ (s0 : GuiState) (script : List GuiAction),
      (∀ a ∈ script, safeAction a = true) →
      (runScript s0 script).early_start = false := by
  intro s0 script hsafe
  have h := slotInv_foldl script
    { s := s0, spawns := 0, finished_seen := 0, early_start := false }
    hsafe
    ⟨rfl, Or.inl ⟨fun _ => Nat.zero_le _, fun _ => Nat.le_refl 0⟩⟩
  exact h.1

/-- Concrete instantiation of `c2_attempt_gating` on a replay that really
starts two attempts: the first attempt completes (its `finished` is
observed) and the comparison dialog's Redo starts a second attempt — two
spawns, two observed finishes, and no attempt started early. -/
theorem c2_attempt_gating_witness :
    (runScript s_idle_with_image redo_replay).early_start = false ∧
    (runScript s_idle_with_image redo_replay).spawns = 2 ∧
    (runScript s_idle_with_image redo_replay).finished_seen = 2 :=
  ⟨c2_attempt_gating s_idle_with_image redo_replay (by decide),
   by decide, by decide⟩

/-- C2 (counterexample): loading a new image while an attempt is running
releases the worker slot at once, so clicking analyze immediately afterwards
starts a second attempt although the first attempt's `finished` signal has
not been observed (two spawns, zero observed finishes) — refuting the claim
that the orchestrator starts a later attempt only after observing the
earlier attempt's FinishedEvent. -/
theorem c2_interleaving_counterexample :
    (runScript (initState true true true)
      [.loadImage "a.png", .clickAnalyze, .loadImage "b.png",
       .clickAnalyze]).early_start = true ∧
    (runScript (initState true true true)
      [.loadImage "a.png", .clickAnalyze, .loadImage "b.png",
       .clickAnalyze]).spawns = 2 ∧
    (runScript (initState true true true)
      [.loadImage "a.png", .clickAnalyze, .loadImage "b.png",
       .clickAnalyze]).finished_seen = 0 :=
  ⟨by decide, by decide, by decide⟩
